import Mathlib

/-!
# Wormhole attack scenario (`wormhole2.cc`)

A shallow embedding of the scenario that `main` of `wormhole2.cc` builds:
the node containers, the two AODV helpers and their attributes, the
internet-stack installation, the address assignment, the traffic
application's parameters, the node positions (those of the mobility
allocator, and those the `SetConstantPosition` calls leave for the run), and
the end-of-run flow report with its throughput expression.

Objects that `main` mutates step by step (the helper attributes, the
internet-stack helper, the address helper) are values passed from one
step to the next, in the order of the statements of `main`.
-/

namespace Wormhole

/-! ## Nodes and containers -/

/-- A node, named by its index of creation (`n0` is `0`). -/
abbrev Node := Nat

/-- A `NodeContainer`: the nodes it holds, in the order they were added. -/
abbrev NodeContainer := List Node

/-- The call `c.Create (n)` on a container: `n` fresh nodes are appended. The
nodes of the program are created by one such call, so their indices start at 0. -/
def NodeContainer.Create (c : NodeContainer) (n : Nat) : NodeContainer :=
  c ++ (List.range n).map (fun i => c.length + i)

/-- The call `c.Get (i)`: the node at position `i` of the container. `main`
only reads positions that exist; any other position reads as node 0 here. -/
def NodeContainer.Get (c : NodeContainer) (i : Nat) : Node :=
  c.getD i 0

/-- The call `c.Add (n)`: the node is appended. -/
def NodeContainer.Add (c : NodeContainer) (n : Node) : NodeContainer :=
  c ++ [n]

/-! ## Addresses -/

/-- An IPv4 address as its 32-bit value. -/
structure Ipv4Address where
  addr : Nat
deriving DecidableEq, Repr

/-- The address written `a.b.c.d` in the source. -/
def ip (a b c d : Nat) : Ipv4Address :=
  ⟨((a * 256 + b) * 256 + c) * 256 + d⟩

/-! ## Attributes of a routing helper -/

/-- The attribute values `main` passes to `AodvHelper::Set`. -/
inductive AttributeValue where
  | BooleanValue (b : Bool)
  | Ipv4AddressValue (a : Ipv4Address)
deriving DecidableEq, Repr

/-- An `AodvHelper`: the attributes set on its agent factory, one entry for
each attribute name. -/
structure AodvHelper where
  attrs : List (String × AttributeValue)
deriving DecidableEq, Repr

/-- The helper as declared (`AodvHelper aodv;`): no attribute set. -/
def AodvHelper.new : AodvHelper := ⟨[]⟩

/-- The call `helper.Set (name, value)`: the attribute `name` now holds
`value`; a value set before under the same name is replaced. -/
def AodvHelper.Set (h : AodvHelper) (name : String) (v : AttributeValue) : AodvHelper :=
  ⟨h.attrs.filter (fun e => e.1 != name) ++ [(name, v)]⟩

/-- The value an attribute holds on the helper, if it was set. -/
def AodvHelper.lookup (h : AodvHelper) (name : String) : Option AttributeValue :=
  (h.attrs.find? (fun e => e.1 == name)).map (fun e => e.2)

/-- The names of the attributes of the helper that hold an address. -/
def AodvHelper.addressAttrs (h : AodvHelper) : List (String × Ipv4Address) :=
  h.attrs.filterMap (fun e =>
    match e.2 with
    | .Ipv4AddressValue a => some (e.1, a)
    | .BooleanValue _ => none)

/-- The helper has the wormhole attack enabled. -/
def AodvHelper.wormholeEnabled (h : AodvHelper) : Bool :=
  h.lookup "EnableWrmAttack" == some (.BooleanValue true)

/-! ## Internet stack -/

/-- An `InternetStackHelper`: the routing helper it installs (a copy taken by
`SetRoutingHelper`) and the stacks installed so far, each with the node it is
on and the routing helper it was built from. -/
structure InternetStackHelper where
  routing : Option AodvHelper
  installed : List (Node × Option AodvHelper)
deriving DecidableEq, Repr

/-- The helper as declared (`InternetStackHelper internet;`). -/
def InternetStackHelper.new : InternetStackHelper := ⟨none, []⟩

/-- The call `internet.SetRoutingHelper (r)`. -/
def InternetStackHelper.SetRoutingHelper (s : InternetStackHelper) (r : AodvHelper) :
    InternetStackHelper :=
  { s with routing := some r }

/-- The call `internet.Install (c)`: one stack on each node of the container,
with the routing helper current at the call. -/
def InternetStackHelper.Install (s : InternetStackHelper) (c : NodeContainer) :
    InternetStackHelper :=
  { s with installed := s.installed ++ c.map (fun n => (n, s.routing)) }

/-! ## Devices and address assignment -/

/-- A network device: the node it is installed on. -/
structure NetDevice where
  node : Node
deriving DecidableEq, Repr

/-- The call `wifi.Install (phy, mac, c)`: one device on each node of the
container, in container order. -/
def WifiHelper.Install (c : NodeContainer) : List NetDevice :=
  c.map (fun n => ⟨n⟩)

/-- An `Ipv4AddressHelper`: the network and the next host number. -/
structure Ipv4AddressHelper where
  network : Nat
  address : Nat
deriving DecidableEq, Repr

/-- The call `ipv4.SetBase (network, mask)`: host numbers restart at 1. -/
def Ipv4AddressHelper.SetBase (network : Ipv4Address) : Ipv4AddressHelper :=
  ⟨network.addr, 1⟩

/-- An entry of an `Ipv4InterfaceContainer`: the node of the interface and
the address it was given. -/
structure Ipv4Interface where
  node : Node
  address : Ipv4Address
deriving DecidableEq, Repr

/-- The call `ipv4.Assign (devices)`: the devices receive consecutive host
addresses of the network, in container order. -/
def Ipv4AddressHelper.Assign (h : Ipv4AddressHelper) :
    List NetDevice → List Ipv4Interface
  | [] => []
  | d :: ds =>
      ⟨d.node, ⟨h.network ||| h.address⟩⟩ ::
        Ipv4AddressHelper.Assign ⟨h.network, h.address + 1⟩ ds

/-- The call `ifcont.GetAddress (i)`. `main` only reads an entry that
exists; any other position reads as `0.0.0.0` here. -/
def GetAddress (ifc : List Ipv4Interface) (i : Nat) : Ipv4Address :=
  (ifc.getD i ⟨0, ⟨0⟩⟩).address

/-! ## Traffic application -/

/-- An `InetSocketAddress`: an address and a port. -/
structure InetSocketAddress where
  address : Ipv4Address
  port : Nat
deriving DecidableEq, Repr

/-- The parameters `main` gives to the traffic application: the node of its
socket, the arguments of `Setup`, and its start and stop times in seconds. -/
structure MyApp where
  socketNode : Node
  peer : InetSocketAddress
  packetSize : Nat
  nPackets : Nat
  dataRate : Nat
  startTime : ℚ
  stopTime : ℚ

/-- The bit rate of `DataRate ("250Kbps")`, in bit/s. -/
def DataRate_250Kbps : Nat := 250 * 1000

/-- Modelled from the spec: the spacing of the send events of the traffic
generator (class `MyApp` of `myapp.h`, which is not among the sources):
`packet_size*8/rate` seconds. -/
def MyApp.interval (a : MyApp) : ℚ :=
  (a.packetSize : ℚ) * 8 / (a.dataRate : ℚ)

/-- Modelled from the spec: the send events of the traffic generator (class
`MyApp` of `myapp.h`, which is not among the sources) from time `t` on with
`n` packets left to send: one send every `interval` seconds, ending after the
last packet or when the stop time is reached, whichever comes first. -/
def MyApp.sendsFrom (a : MyApp) : Nat → ℚ → List ℚ
  | 0, _ => []
  | n + 1, t =>
      if t < a.stopTime then t :: MyApp.sendsFrom a n (t + a.interval) else []

/-- Modelled from the spec: the times of all send events of the traffic
generator (class `MyApp` of `myapp.h`, which is not among the sources), the
first one at the start time. -/
def MyApp.sendTimes (a : MyApp) : List ℚ :=
  a.sendsFrom a.nPackets a.startTime

/-! ## Positions -/

/-- A position `Vector (x, y, z)`, in metres. -/
structure Vector where
  x : Int
  y : Int
  z : Int
deriving DecidableEq, Repr

/-- The radio range the physical layer is configured for
(`// For range near 250m`), in metres. -/
def radioRange : Int := 250

/-- The square of the Euclidean distance between two positions. -/
def distSq (p q : Vector) : Int :=
  (p.x - q.x) ^ 2 + (p.y - q.y) ^ 2 + (p.z - q.z) ^ 2

/-- The calls `mobility.SetPositionAllocator (positionAlloc)` and
`mobility.Install (c)`: the nodes of the container take the positions of the
list, in order. -/
def MobilityHelper.Install (positionAlloc : List Vector) (c : NodeContainer) :
    List (Node × Vector) :=
  c.zip positionAlloc

/-- The call `AnimationInterface::SetConstantPosition (n, x, y)`: the position
of the node's constant-position mobility model becomes `(x, y, 0)`, in place
of the one it had; a node that had none gets this one. -/
def AnimationInterface.SetConstantPosition (ps : List (Node × Vector)) (n : Node)
    (x y : Int) : List (Node × Vector) :=
  if ps.any (fun e => e.1 == n) then
    ps.map (fun e => if e.1 == n then (e.1, ⟨x, y, 0⟩) else e)
  else ps ++ [(n, ⟨x, y, 0⟩)]

/-! ## The scenario built by `main` -/

/-- What `main` has built when the simulation starts. -/
structure World where
  c : NodeContainer
  not_malicious : NodeContainer
  malicious : NodeContainer
  devices : List NetDevice
  mal_devices : List NetDevice
  aodv : AodvHelper
  -- the `Set` calls made on `malicious_aodv`, in order
  malicious_aodv_calls : List (String × AttributeValue)
  malicious_aodv : AodvHelper
  internet : InternetStackHelper
  ifcont : List Ipv4Interface
  mal_ifcont : List Ipv4Interface
  sinkPort : Nat
  sinkAddress : InetSocketAddress
  -- the node the packet sink is installed on
  sinkNode : Node
  app : MyApp
  -- the positions `mobility.Install` gives the nodes, from the allocator
  positions : List (Node × Vector)
  -- the positions after the `SetConstantPosition` calls, those of the run
  startPositions : List (Node × Vector)
  -- the time of `Simulator::Stop`, in seconds
  simulatorStop : ℚ

/-- The statements of `main` up to `Simulator::Run`, in order. -/
def main : World :=
  let c : NodeContainer := NodeContainer.Create [] 6
  let not_malicious : NodeContainer := []
  let malicious : NodeContainer := []
  let not_malicious := not_malicious.Add (c.Get 0)
  let not_malicious := not_malicious.Add (c.Get 3)
  let not_malicious := not_malicious.Add (c.Get 4)
  let not_malicious := not_malicious.Add (c.Get 5)
  let malicious := malicious.Add (c.Get 1)
  let malicious := malicious.Add (c.Get 2)
  let devices := WifiHelper.Install c
  let mal_devices := WifiHelper.Install malicious
  let aodv := AodvHelper.new
  let malicious_aodv := AodvHelper.new
  let internet := InternetStackHelper.new
  let internet := internet.SetRoutingHelper aodv
  let internet := internet.Install not_malicious
  let call1 := ("EnableWrmAttack", AttributeValue.BooleanValue true)
  let malicious_aodv := malicious_aodv.Set call1.1 call1.2
  let call2 := ("FirstEndWifiWormTunnel", AttributeValue.Ipv4AddressValue (ip 10 0 1 1))
  let malicious_aodv := malicious_aodv.Set call2.1 call2.2
  let call3 := ("FirstEndWifiWormTunnel", AttributeValue.Ipv4AddressValue (ip 10 0 1 2))
  let malicious_aodv := malicious_aodv.Set call3.1 call3.2
  let internet := internet.SetRoutingHelper malicious_aodv
  let internet := internet.Install malicious
  let ipv4 := Ipv4AddressHelper.SetBase (ip 10 0 1 0)
  let ifcont := ipv4.Assign devices
  let ipv4 := Ipv4AddressHelper.SetBase (ip 10 1 2 0)
  let mal_ifcont := ipv4.Assign mal_devices
  let sinkPort := 6
  let sinkAddress : InetSocketAddress := ⟨GetAddress ifcont 3, sinkPort⟩
  let sinkNode := c.Get 3
  let app : MyApp :=
    { socketNode := c.Get 0, peer := sinkAddress, packetSize := 1040, nPackets := 5,
      dataRate := DataRate_250Kbps, startTime := 40, stopTime := 100 }
  let positionAlloc : List Vector :=
    [⟨100, 0, 0⟩, ⟨200, 0, 0⟩, ⟨450, 0, 0⟩, ⟨550, 0, 0⟩, ⟨200, 10, 0⟩, ⟨450, 10, 0⟩]
  let positions := MobilityHelper.Install positionAlloc c
  let startPositions := positions
  let startPositions := AnimationInterface.SetConstantPosition startPositions (c.Get 0) 0 500
  let startPositions := AnimationInterface.SetConstantPosition startPositions (c.Get 1) 200 500
  let startPositions := AnimationInterface.SetConstantPosition startPositions (c.Get 2) 400 500
  let startPositions := AnimationInterface.SetConstantPosition startPositions (c.Get 3) 600 500
  let startPositions := AnimationInterface.SetConstantPosition startPositions (c.Get 4) 200 600
  let startPositions := AnimationInterface.SetConstantPosition startPositions (c.Get 5) 400 600
  { c := c, not_malicious := not_malicious, malicious := malicious,
    devices := devices, mal_devices := mal_devices,
    aodv := aodv, malicious_aodv_calls := [call1, call2, call3],
    malicious_aodv := malicious_aodv, internet := internet,
    ifcont := ifcont, mal_ifcont := mal_ifcont,
    sinkPort := sinkPort, sinkAddress := sinkAddress, sinkNode := sinkNode,
    app := app, positions := positions, startPositions := startPositions,
    simulatorStop := 100 }

/-- The nodes an address is assigned to, over both interface containers. -/
def owners (w : World) (a : Ipv4Address) : List Node :=
  ((w.ifcont ++ w.mal_ifcont).filter (fun i => i.address == a)).map (fun i => i.node)

/-- The position of a node, if the mobility helper gave it one. -/
def positionOf (w : World) (n : Node) : Option Vector :=
  (w.positions.find? (fun e => e.1 == n)).map (fun e => e.2)

/-- The square of the distance between two nodes, when both have a position. -/
def nodeDistSq (w : World) (a b : Node) : Option Int :=
  match positionOf w a, positionOf w b with
  | some p, some q => some (distSq p q)
  | _, _ => none

/-- The position a list of positions holds for a node, if it holds one. -/
def positionIn (ps : List (Node × Vector)) (n : Node) : Option Vector :=
  (ps.find? (fun e => e.1 == n)).map (fun e => e.2)

/-- The square of the distance between two nodes in a list of positions, when
both have a position there. -/
def distSqIn (ps : List (Node × Vector)) (a b : Node) : Option Int :=
  match positionIn ps a, positionIn ps b with
  | some p, some q => some (distSq p q)
  | _, _ => none

/-- Two nodes are linked under a list of positions: they are distinct, both
have a position, and their distance is at most the radio range. -/
def linked (ps : List (Node × Vector)) (a b : Node) : Bool :=
  a != b &&
    match distSqIn ps a b with
    | some d => decide (d ≤ radioRange ^ 2)
    | none => false

/-- The pairs the topology diagram of the file header draws as adjacent. The
diagram calls the destination `n6`; it is the node at index 3, the sink. -/
def adjacentPairs : List (Node × Node) :=
  [(0, 1), (1, 2), (2, 3), (0, 4), (4, 5), (5, 3)]

/-- A walk under a list of positions: a list of nodes in which every two
consecutive ones are linked. -/
def isWalk (ps : List (Node × Vector)) : List Node → Bool
  | [] => true
  | [_] => true
  | a :: b :: rest => linked ps a b && isWalk ps (b :: rest)

/-! ## The end-of-run flow report -/

/-- The part of `Ipv4FlowClassifier::FiveTuple` the report reads, with the
ports and protocol that tell flows of one address pair apart. -/
structure FiveTuple where
  sourceAddress : Ipv4Address
  destinationAddress : Ipv4Address
  protocol : Nat
  sourcePort : Nat
  destinationPort : Nat
deriving DecidableEq, Repr

/-- The part of `FlowMonitor::FlowStats` the report reads. The two times are
the values of `GetSeconds ()`, as exact rationals. -/
structure FlowStats where
  txBytes : Nat
  rxBytes : Nat
  timeFirstTxPacket : ℚ
  timeLastRxPacket : ℚ

/-- A quotient of the report. Division by zero is the error result `none`. -/
def divide (a b : ℚ) : Option ℚ :=
  if b = 0 then none else some (a / b)

/-- The throughput expression of the report:
`rxBytes * 8.0 / (timeLastRxPacket - timeFirstTxPacket) / 1024 / 1024`. -/
def throughput (s : FlowStats) : Option ℚ :=
  (divide ((s.rxBytes : ℚ) * 8) (s.timeLastRxPacket - s.timeFirstTxPacket)).bind
    (fun q => (divide q 1024).bind (fun r => divide r 1024))

/-- A record the report prints for a flow. -/
structure Record where
  flowId : Nat
  sourceAddress : Ipv4Address
  destinationAddress : Ipv4Address
  txBytes : Nat
  rxBytes : Nat
  throughputMbps : Option ℚ

/-- The test of the report on the flow's five-tuple:
`t.sourceAddress=="10.0.1.1" && t.destinationAddress == "10.0.1.4"`. -/
def printed (t : FiveTuple) : Bool :=
  t.sourceAddress == ip 10 0 1 1 && t.destinationAddress == ip 10 0 1 4

/-- The loop of the report over the flow statistics, in the order of the map:
a record for each flow that passes the test. -/
def report (classifier : Nat → FiveTuple) : List (Nat × FlowStats) → List Record
  | [] => []
  | (id, s) :: rest =>
      let t := classifier id
      if printed t then
        { flowId := id, sourceAddress := t.sourceAddress,
          destinationAddress := t.destinationAddress,
          txBytes := s.txBytes, rxBytes := s.rxBytes,
          throughputMbps := throughput s } :: report classifier rest
      else report classifier rest

/-! ## Sample flows -/

/-- A five-tuple of the traffic flow: from `10.0.1.1` to `10.0.1.4`, UDP
(protocol 17), to the sink port. -/
def trafficTuple : FiveTuple :=
  { sourceAddress := ip 10 0 1 1, destinationAddress := ip 10 0 1 4,
    protocol := 17, sourcePort := 49153, destinationPort := 6 }

/-- Flow statistics of a flow that received all of 5200 bytes, first sent at
40 s and last received at 41 s. -/
def statsOneSecond : FlowStats :=
  { txBytes := 5200, rxBytes := 5200, timeFirstTxPacket := 40, timeLastRxPacket := 41 }

/-- Flow statistics of a flow first sent at time 0 of which nothing was
received: the time of the last reception still has its initial value 0. -/
def statsNothingReceived : FlowStats :=
  { txBytes := 1068, rxBytes := 0, timeFirstTxPacket := 0, timeLastRxPacket := 0 }

/-- Flow statistics of a flow first sent at 40 s of which nothing was
received. -/
def statsLost : FlowStats :=
  { txBytes := 5340, rxBytes := 0, timeFirstTxPacket := 40, timeLastRxPacket := 0 }

/-! ## Evaluation of the scenario -/

theorem main_c : main.c = [0, 1, 2, 3, 4, 5] := by decide

theorem main_malicious : main.malicious = [1, 2] := by decide

theorem main_not_malicious : main.not_malicious = [0, 3, 4, 5] := by decide

theorem main_installed :
    main.internet.installed =
      [(0, some main.aodv), (3, some main.aodv), (4, some main.aodv), (5, some main.aodv),
       (1, some main.malicious_aodv), (2, some main.malicious_aodv)] := by decide

theorem main_ifcont :
    main.ifcont =
      [⟨0, ip 10 0 1 1⟩, ⟨1, ip 10 0 1 2⟩, ⟨2, ip 10 0 1 3⟩, ⟨3, ip 10 0 1 4⟩,
       ⟨4, ip 10 0 1 5⟩, ⟨5, ip 10 0 1 6⟩] := by decide

theorem main_mal_ifcont :
    main.mal_ifcont = [⟨1, ip 10 1 2 1⟩, ⟨2, ip 10 1 2 2⟩] := by decide

theorem main_positions :
    main.positions =
      [(0, ⟨100, 0, 0⟩), (1, ⟨200, 0, 0⟩), (2, ⟨450, 0, 0⟩), (3, ⟨550, 0, 0⟩),
       (4, ⟨200, 10, 0⟩), (5, ⟨450, 10, 0⟩)] := by decide

theorem main_startPositions :
    main.startPositions =
      [(0, ⟨0, 500, 0⟩), (1, ⟨200, 500, 0⟩), (2, ⟨400, 500, 0⟩), (3, ⟨600, 500, 0⟩),
       (4, ⟨200, 600, 0⟩), (5, ⟨400, 600, 0⟩)] := by decide

/-- Neither list of positions of `main` holds a position for an index from 6 on. -/
theorem positionIn_main_none (ps : List (Node × Vector))
    (hps : ps = main.startPositions ∨ ps = main.positions) (n : Nat) (h : 6 ≤ n) :
    positionIn ps n = none := by
  have h0 : (0 == n) = false := by simpa using (by omega : 0 ≠ n)
  have h1 : (1 == n) = false := by simpa using (by omega : 1 ≠ n)
  have h2 : (2 == n) = false := by simpa using (by omega : 2 ≠ n)
  have h3 : (3 == n) = false := by simpa using (by omega : 3 ≠ n)
  have h4 : (4 == n) = false := by simpa using (by omega : 4 ≠ n)
  have h5 : (5 == n) = false := by simpa using (by omega : 5 ≠ n)
  rcases hps with hps | hps
  · rw [hps, main_startPositions]
    simp [positionIn, List.find?, h0, h1, h2, h3, h4, h5]
  · rw [hps, main_positions]
    simp [positionIn, List.find?, h0, h1, h2, h3, h4, h5]

/-- Linked nodes are among the six nodes of `main`. -/
theorem linked_main_lt (ps : List (Node × Vector))
    (hps : ps = main.startPositions ∨ ps = main.positions) (a b : Nat)
    (h : linked ps a b = true) : a < 6 ∧ b < 6 := by
  by_contra hc
  have hab : 6 ≤ a ∨ 6 ≤ b := by omega
  have hn : distSqIn ps a b = none := by
    rcases hab with ha | hb
    · simp [distSqIn, positionIn_main_none ps hps a ha]
    · unfold distSqIn
      rw [positionIn_main_none ps hps b hb]
      cases positionIn ps a <;> rfl
  simp [linked, hn] at h

/-- The throughput expression away from a zero denominator. -/
theorem throughput_of_ne (s : FlowStats)
    (h : s.timeLastRxPacket ≠ s.timeFirstTxPacket) :
    throughput s =
      some ((s.rxBytes : ℚ) * 8 / (s.timeLastRxPacket - s.timeFirstTxPacket) / 1024 / 1024) := by
  have hd : s.timeLastRxPacket - s.timeFirstTxPacket ≠ 0 := sub_ne_zero.mpr h
  simp [throughput, divide, hd]

/-- The throughput expression at a zero denominator. -/
theorem throughput_of_eq (s : FlowStats)
    (h : s.timeLastRxPacket = s.timeFirstTxPacket) : throughput s = none := by
  simp [throughput, divide, h]

/-- The records of the report come from the flows that pass its test. -/
theorem mem_report (classifier : Nat → FiveTuple) (stats : List (Nat × FlowStats))
    (r : Record) :
    r ∈ report classifier stats ↔
      ∃ id s, (id, s) ∈ stats ∧ printed (classifier id) = true ∧
        r = { flowId := id, sourceAddress := (classifier id).sourceAddress,
              destinationAddress := (classifier id).destinationAddress,
              txBytes := s.txBytes, rxBytes := s.rxBytes,
              throughputMbps := throughput s } := by
  induction stats with
  | nil => simp [report]
  | cons e rest ih =>
    obtain ⟨id0, s0⟩ := e
    by_cases hp : printed (classifier id0) = true
    · simp only [report, hp, if_true, List.mem_cons, ih]
      constructor
      · rintro (h | ⟨id, s, hm, hq, hr⟩)
        · exact ⟨id0, s0, Or.inl rfl, hp, h⟩
        · exact ⟨id, s, Or.inr hm, hq, hr⟩
      · rintro ⟨id, s, hm | hm, hq, hr⟩
        · cases hm
          exact Or.inl hr
        · exact Or.inr ⟨id, s, hm, hq, hr⟩
    · have hf : printed (classifier id0) = false := by simpa using hp
      have hrep : report classifier ((id0, s0) :: rest) = report classifier rest := by
        simp [report, hf]
      rw [hrep, ih]
      constructor
      · rintro ⟨id, s, hm, hq, hr⟩
        exact ⟨id, s, List.mem_cons_of_mem _ hm, hq, hr⟩
      · rintro ⟨id, s, hm, hq, hr⟩
        rcases List.mem_cons.mp hm with hm | hm
        · cases hm
          exact absurd hq hp
        · exact ⟨id, s, hm, hq, hr⟩

/-! ## The claims -/

/-- C1: after the three `Set` calls `main` makes on `malicious_aodv`, the
helper holds one tunnel attribute only: both tunnel calls name
`FirstEndWifiWormTunnel`, so the second replaces the first and the single
address left on the helper is `10.0.1.2`. There is no endpoint pair. -/
theorem C1_tunnel_calls_share_one_attribute :
    main.malicious_aodv_calls =
        [("EnableWrmAttack", .BooleanValue true),
         ("FirstEndWifiWormTunnel", .Ipv4AddressValue (ip 10 0 1 1)),
         ("FirstEndWifiWormTunnel", .Ipv4AddressValue (ip 10 0 1 2))] ∧
      main.malicious_aodv.attrs =
        [("EnableWrmAttack", .BooleanValue true),
         ("FirstEndWifiWormTunnel", .Ipv4AddressValue (ip 10 0 1 2))] ∧
      main.malicious_aodv.addressAttrs = [("FirstEndWifiWormTunnel", ip 10 0 1 2)] ∧
      main.malicious_aodv.addressAttrs.length = 1 := by
  decide

/-- C2: the address of the first tunnel call of `main`, `10.0.1.1`, is
assigned to node `n0` and to no other node; `n0` is in `not_malicious` and not
in `malicious`. The addresses of the malicious nodes `n1` and `n2` are
`10.0.1.2`, `10.0.1.3`, `10.1.2.1` and `10.1.2.2`. -/
theorem C2_first_tunnel_address_is_of_n0 :
    ("FirstEndWifiWormTunnel", AttributeValue.Ipv4AddressValue (ip 10 0 1 1))
        ∈ main.malicious_aodv_calls ∧
      owners main (ip 10 0 1 1) = [0] ∧
      0 ∈ main.not_malicious ∧ 0 ∉ main.malicious ∧
      owners main (ip 10 0 1 2) = [1] ∧ owners main (ip 10 0 1 3) = [2] ∧
      owners main (ip 10 1 2 1) = [1] ∧ owners main (ip 10 1 2 2) = [2] := by
  decide

/-- C6: the containers of `main` split the six nodes into
`malicious = {n1, n2}` and `not_malicious = {n0, n3, n4, n5}`, disjoint and
together all of `c`; every node of `c` has exactly one internet stack; the
stacks built from the helper with the wormhole attack enabled are exactly
those of `n1` and `n2`, and the stacks built from the plain helper (attack
not enabled) are exactly those of the other four. -/
theorem C6_routing_behaviour_selected_once :
    (∀ n : Nat, n ∈ main.c ↔ n < 6) ∧
      main.malicious = [1, 2] ∧ main.not_malicious = [0, 3, 4, 5] ∧
      (∀ n : Nat, ¬ (n ∈ main.malicious ∧ n ∈ main.not_malicious)) ∧
      (∀ n : Nat, n ∈ main.c ↔ (n ∈ main.malicious ∨ n ∈ main.not_malicious)) ∧
      (∀ n : Nat, n ∈ main.c →
        (main.internet.installed.filter (fun e => e.1 == n)).length = 1) ∧
      (∀ e, e ∈ main.internet.installed → e.1 ∈ main.c) ∧
      main.malicious_aodv.wormholeEnabled = true ∧
      main.aodv.wormholeEnabled = false ∧
      (∀ n : Nat, (n, some main.malicious_aodv) ∈ main.internet.installed ↔
        n ∈ main.malicious) ∧
      (∀ n : Nat, (n, some main.aodv) ∈ main.internet.installed ↔
        n ∈ main.not_malicious) := by
  have hne : main.aodv ≠ main.malicious_aodv := by decide
  have hne2 : main.malicious_aodv ≠ main.aodv := fun h => hne h.symm
  refine ⟨?_, main_malicious, main_not_malicious, ?_, ?_, ?_, ?_, by decide, by decide,
    ?_, ?_⟩
  · intro n
    rw [main_c]
    simp only [List.mem_cons, List.mem_singleton, List.not_mem_nil, or_false]
    omega
  · intro n
    rw [main_malicious, main_not_malicious]
    simp only [List.mem_cons, List.mem_singleton, List.not_mem_nil, or_false]
    omega
  · intro n
    rw [main_c, main_malicious, main_not_malicious]
    simp only [List.mem_cons, List.mem_singleton, List.not_mem_nil, or_false]
    omega
  · intro n hn
    rw [main_c] at hn
    simp only [List.mem_cons, List.mem_singleton, List.not_mem_nil, or_false] at hn
    rcases hn with h | h | h | h | h | h <;> subst h <;> decide
  · intro e he
    rw [main_installed] at he
    simp only [List.mem_cons, List.mem_singleton, List.not_mem_nil, or_false] at he
    rcases he with h | h | h | h | h | h <;> subst h <;> decide
  · intro n
    rw [main_installed, main_malicious]
    simp [hne2]
  · intro n
    rw [main_installed, main_not_malicious]
    simp [hne]

/-- C7: every pair of nodes that the topology diagram of the header draws as
adjacent has positions whose squared distance is at most the square of the
250 m radio range. -/
theorem C7_adjacent_nodes_in_range (a b : Nat) (h : (a, b) ∈ adjacentPairs) :
    ∃ d, nodeDistSq main a b = some d ∧ d ≤ radioRange ^ 2 := by
  simp only [adjacentPairs, List.mem_cons, List.mem_singleton, List.not_mem_nil, or_false,
    Prod.mk.injEq] at h
  rcases h with ⟨ha, hb⟩ | ⟨ha, hb⟩ | ⟨ha, hb⟩ | ⟨ha, hb⟩ | ⟨ha, hb⟩ | ⟨ha, hb⟩ <;>
    subst ha <;> subst hb
  · exact ⟨10000, by decide, by decide⟩
  · exact ⟨62500, by decide, by decide⟩
  · exact ⟨10000, by decide, by decide⟩
  · exact ⟨10100, by decide, by decide⟩
  · exact ⟨62500, by decide, by decide⟩
  · exact ⟨10100, by decide, by decide⟩

/-- C7 at the pair `n1`, `n2`, which are exactly 250 m apart. -/
theorem C7_adjacent_nodes_in_range_witness :
    (1, 2) ∈ adjacentPairs ∧ ∃ d, nodeDistSq main 1 2 = some d ∧ d ≤ radioRange ^ 2 :=
  ⟨by decide, C7_adjacent_nodes_in_range 1 2 (by decide)⟩

/-- C3, as stated, fails: for a printed flow with 5200 bytes received over one
second, the report's throughput value is `5200*8/1/1024/1024 = 325/8192`,
while `rx_bytes*8 / (time_last_rx - time_first_tx)` is `41600`. -/
theorem C3_throughput_is_not_bits_per_second :
    (report (fun _ => trafficTuple) [(1, statsOneSecond)]).map (fun r => r.throughputMbps)
        = [some (325 / 8192)] ∧
      (statsOneSecond.rxBytes : ℚ) * 8 /
          (statsOneSecond.timeLastRxPacket - statsOneSecond.timeFirstTxPacket) = 41600 ∧
      (325 / 8192 : ℚ) < 41600 ∧
      statsOneSecond.timeFirstTxPacket < statsOneSecond.timeLastRxPacket := by
  refine ⟨?_, ?_, ?_, ?_⟩
  · have hp : printed trafficTuple = true := by decide
    have ht : throughput statsOneSecond = some (325 / 8192) := by
      rw [throughput_of_ne statsOneSecond (by norm_num [statsOneSecond])]
      norm_num [statsOneSecond]
    simp [report, hp, ht]
  · norm_num [statsOneSecond]
  · norm_num
  · norm_num [statsOneSecond]

/-- C3, amended: every record the report prints is the record of a flow of
the statistics that passes the address test, and when that flow's
`timeLastRxPacket` differs from its `timeFirstTxPacket` the throughput value
of the record is `rxBytes*8 / (timeLastRxPacket - timeFirstTxPacket)` divided
by 1024 and again by 1024 (megabits per second, not bits per second). -/
theorem C3_throughput_in_Mbps (classifier : Nat → FiveTuple)
    (stats : List (Nat × FlowStats)) (r : Record) (h : r ∈ report classifier stats) :
    ∃ id s, (id, s) ∈ stats ∧ printed (classifier id) = true ∧ r.flowId = id ∧
      r.rxBytes = s.rxBytes ∧
      (s.timeLastRxPacket ≠ s.timeFirstTxPacket →
        r.throughputMbps =
          some ((s.rxBytes : ℚ) * 8 / (s.timeLastRxPacket - s.timeFirstTxPacket)
            / 1024 / 1024)) := by
  obtain ⟨id, s, hm, hp, hr⟩ := (mem_report classifier stats r).mp h
  refine ⟨id, s, hm, hp, ?_, ?_, ?_⟩
  · rw [hr]
  · rw [hr]
  · intro hne
    rw [hr]
    exact throughput_of_ne s hne

/-- C3, amended, at the printed flow with 5200 bytes received over one second. -/
theorem C3_throughput_in_Mbps_witness :
    ∃ id s, (id, s) ∈ [(1, statsOneSecond)] ∧ printed trafficTuple = true ∧
      (1 : Nat) = id ∧ statsOneSecond.rxBytes = s.rxBytes ∧
      (s.timeLastRxPacket ≠ s.timeFirstTxPacket →
        throughput statsOneSecond =
          some ((s.rxBytes : ℚ) * 8 / (s.timeLastRxPacket - s.timeFirstTxPacket)
            / 1024 / 1024)) :=
  C3_throughput_in_Mbps (fun _ => trafficTuple) [(1, statsOneSecond)]
    { flowId := 1, sourceAddress := trafficTuple.sourceAddress,
      destinationAddress := trafficTuple.destinationAddress,
      txBytes := statsOneSecond.txBytes, rxBytes := statsOneSecond.rxBytes,
      throughputMbps := throughput statsOneSecond }
    (by
      have hp : printed trafficTuple = true := by decide
      simp [report, hp])

/-- C4, as stated, fails: for a printed flow with no received packet whose
first transmission is at time 0, the denominator
`timeLastRxPacket - timeFirstTxPacket` is zero and the throughput expression
divides by it: the report's value is the error result. -/
theorem C4_division_by_zero_reached :
    statsNothingReceived.rxBytes = 0 ∧
      statsNothingReceived.timeLastRxPacket - statsNothingReceived.timeFirstTxPacket = 0 ∧
      throughput statsNothingReceived = none ∧
      (report (fun _ => trafficTuple) [(1, statsNothingReceived)]).map
        (fun r => r.throughputMbps) = [none] := by
  have ht : throughput statsNothingReceived = none :=
    throughput_of_eq statsNothingReceived (by norm_num [statsNothingReceived])
  have hp : printed trafficTuple = true := by decide
  refine ⟨rfl, by norm_num [statsNothingReceived], ht, ?_⟩
  simp [report, hp, ht]

/-- C4, amended: the throughput expression has no guard. It divides by zero
exactly when `timeLastRxPacket` equals `timeFirstTxPacket`; for every other
flow the error result is not reached, and for a flow with no received byte
and differing times the throughput is zero. -/
theorem C4_division_by_zero_iff_equal_times (s : FlowStats) :
    (throughput s = none ↔ s.timeLastRxPacket = s.timeFirstTxPacket) ∧
      (s.rxBytes = 0 → s.timeLastRxPacket ≠ s.timeFirstTxPacket →
        throughput s = some 0) := by
  constructor
  · constructor
    · intro hn
      by_contra hne
      rw [throughput_of_ne s hne] at hn
      exact Option.noConfusion hn
    · exact throughput_of_eq s
  · intro hz hne
    rw [throughput_of_ne s hne, hz]
    simp

/-- C4, amended, at a flow first sent at 40 s of which nothing was received:
the denominator is -40 and the throughput is zero. -/
theorem C4_division_by_zero_iff_equal_times_witness :
    statsLost.rxBytes = 0 ∧ statsLost.timeLastRxPacket ≠ statsLost.timeFirstTxPacket ∧
      throughput statsLost = some 0 :=
  ⟨rfl, by norm_num [statsLost],
    (C4_division_by_zero_iff_equal_times statsLost).2 rfl (by norm_num [statsLost])⟩

/-- C5: with the parameters `main` gives the traffic application (1040 bytes,
5 packets, 250000 bit/s, start 40 s, stop 100 s) the sends are 0.03328 s
apart, at `40 + k*0.03328` s for `k = 0..4`; each is before the stop time
and before the end of the simulation, and exactly 5 sends are scheduled. -/
theorem C5_five_sends_before_stop :
    main.app.packetSize = 1040 ∧ main.app.nPackets = 5 ∧ main.app.dataRate = 250000 ∧
      main.app.startTime = 40 ∧ main.app.stopTime = 100 ∧ main.simulatorStop = 100 ∧
      main.app.interval = 3328 / 100000 ∧
      main.app.sendTimes = (List.range 5).map (fun k : Nat => 40 + (k : ℚ) * (3328 / 100000)) ∧
      (∀ t ∈ main.app.sendTimes, t < main.app.stopTime ∧ t < main.simulatorStop) ∧
      main.app.sendTimes.length = main.app.nPackets := by
  have hi : main.app.interval = 3328 / 100000 := by
    norm_num [main, MyApp.interval, DataRate_250Kbps]
  have hs : main.app.stopTime = 100 := rfl
  have hst : main.app.sendTimes =
      (List.range 5).map (fun k : Nat => 40 + (k : ℚ) * (3328 / 100000)) := by
    have h5 : main.app.nPackets = 5 := rfl
    have h40 : main.app.startTime = 40 := rfl
    simp only [MyApp.sendTimes, h5, h40, MyApp.sendsFrom, hi, hs]
    norm_num [List.range, List.range.loop]
  refine ⟨rfl, rfl, rfl, rfl, rfl, rfl, hi, hst, ?_, ?_⟩
  · intro t ht
    rw [hst] at ht
    have hstop : main.simulatorStop = 100 := rfl
    rw [hs, hstop]
    obtain ⟨k, hk, rfl⟩ := List.mem_map.mp ht
    have hk5 : k < 5 := List.mem_range.mp hk
    have hk4 : (k : ℚ) ≤ 4 := by exact_mod_cast (by omega : k ≤ 4)
    constructor <;> linarith
  · rw [hst]
    rfl

/-- C9: the report prints a record for a flow exactly when the flow's source
address is the address assigned to `n0`, the node of the sending socket, and
its destination address is the address assigned to `n3`, the node of the
packet sink; that address, with the sink's port 6, is the destination given
to the traffic application. The addresses of the first network are
`10.0.1.1` to `10.0.1.6`, in node order. -/
theorem C9_report_prints_traffic_endpoints :
    main.ifcont.map (fun i => (i.node, i.address)) =
        [(0, ip 10 0 1 1), (1, ip 10 0 1 2), (2, ip 10 0 1 3), (3, ip 10 0 1 4),
         (4, ip 10 0 1 5), (5, ip 10 0 1 6)] ∧
      main.app.socketNode = 0 ∧ main.sinkNode = 3 ∧ main.sinkPort = 6 ∧
      GetAddress main.ifcont 0 = ip 10 0 1 1 ∧ GetAddress main.ifcont 3 = ip 10 0 1 4 ∧
      owners main (ip 10 0 1 1) = [main.app.socketNode] ∧
      owners main (ip 10 0 1 4) = [main.sinkNode] ∧
      main.sinkAddress = ⟨GetAddress main.ifcont 3, 6⟩ ∧
      main.app.peer = main.sinkAddress ∧
      (∀ t : FiveTuple, printed t = true ↔
        (t.sourceAddress = GetAddress main.ifcont main.app.socketNode ∧
          t.destinationAddress = GetAddress main.ifcont main.sinkNode)) ∧
      (∀ (classifier : Nat → FiveTuple) (stats : List (Nat × FlowStats)) (id : Nat),
        (∃ r, r ∈ report classifier stats ∧ r.flowId = id) ↔
          ((∃ s, (id, s) ∈ stats) ∧
            (classifier id).sourceAddress = GetAddress main.ifcont main.app.socketNode ∧
            (classifier id).destinationAddress = GetAddress main.ifcont main.sinkNode)) := by
  have h0 : GetAddress main.ifcont main.app.socketNode = ip 10 0 1 1 := by decide
  have h3 : GetAddress main.ifcont main.sinkNode = ip 10 0 1 4 := by decide
  have hp : ∀ t : FiveTuple, printed t = true ↔
      (t.sourceAddress = GetAddress main.ifcont main.app.socketNode ∧
        t.destinationAddress = GetAddress main.ifcont main.sinkNode) := by
    intro t
    rw [h0, h3]
    simp [printed]
  refine ⟨by decide, rfl, by decide, rfl, by decide, by decide, by decide, by decide,
    by decide, rfl, hp, ?_⟩
  intro classifier stats id
  rw [← hp]
  constructor
  · rintro ⟨r, hr, hid⟩
    obtain ⟨id1, s, hm, hq, he⟩ := (mem_report classifier stats r).mp hr
    have hid1 : id1 = id := by rw [← hid, he]
    subst hid1
    exact ⟨⟨s, hm⟩, hq⟩
  · rintro ⟨⟨s, hm⟩, hq⟩
    exact ⟨_, (mem_report classifier stats _).mpr ⟨id, s, hm, hq, rfl⟩, rfl⟩

/-- C10: take the positions the six nodes have when the simulation runs
(after the `SetConstantPosition` calls of `main`), or the positions `main`
gives the mobility allocator. In the graph that links two distinct nodes at
most 250 m apart, `n0-n1-n2-n3` and `n0-n4-n5-n3` are walks of 3 hops, `n0`
and `n3` are not linked, no node is linked to both, and so every walk from
`n0` to `n3` has at least 4 nodes, that is at least 3 hops: the shortest hop
count from the source to the sink is exactly 3, on both paths. -/
theorem C10_shortest_hop_count_is_three (ps : List (Node × Vector))
    (hps : ps = main.startPositions ∨ ps = main.positions) :
    isWalk ps [0, 1, 2, 3] = true ∧ isWalk ps [0, 4, 5, 3] = true ∧
      linked ps 0 3 = false ∧
      (∀ m : Nat, ¬ (linked ps 0 m = true ∧ linked ps m 3 = true)) ∧
      (∀ p : List Node, isWalk ps p = true → p.head? = some 0 → p.getLast? = some 3 →
        3 ≤ p.length - 1) := by
  have h1 : linked ps 0 3 = false := by
    rcases hps with h | h <;> subst h <;> decide
  have h2 : ∀ m : Nat, ¬ (linked ps 0 m = true ∧ linked ps m 3 = true) := by
    rintro m ⟨h0m, hm3⟩
    have hm : m < 6 := (linked_main_lt ps hps 0 m h0m).2
    rcases hps with h | h <;> subst h <;> interval_cases m <;> revert h0m hm3 <;> decide
  refine ⟨?_, ?_, h1, h2, ?_⟩
  · rcases hps with h | h <;> subst h <;> decide
  · rcases hps with h | h <;> subst h <;> decide
  intro p hw hh hl
  match p, hw, hh, hl with
  | [], _, hh, _ => simp at hh
  | [a], _, hh, hl =>
    simp only [List.head?_cons, Option.some.injEq] at hh
    simp only [List.getLast?_singleton, Option.some.injEq] at hl
    rw [hh] at hl
    exact absurd hl (by decide)
  | [a, b], hw, hh, hl =>
    simp at hh hl
    subst hh
    subst hl
    simp only [isWalk, Bool.and_true] at hw
    rw [h1] at hw
    exact absurd hw (by decide)
  | [a, m, b], hw, hh, hl =>
    simp at hh hl
    subst hh
    subst hl
    simp only [isWalk, Bool.and_true, Bool.and_eq_true] at hw
    exact absurd hw (h2 m)
  | _ :: _ :: _ :: _ :: _, _, _, _ =>
    simp

/-- C10 at the positions the nodes have when the simulation runs: `n0` at
`(0, 500)`, `n1` at `(200, 500)`, `n2` at `(400, 500)`, `n3` at `(600, 500)`,
`n4` at `(200, 600)`, `n5` at `(400, 600)`. -/
theorem C10_shortest_hop_count_is_three_witness :
    main.startPositions =
        [(0, ⟨0, 500, 0⟩), (1, ⟨200, 500, 0⟩), (2, ⟨400, 500, 0⟩), (3, ⟨600, 500, 0⟩),
         (4, ⟨200, 600, 0⟩), (5, ⟨400, 600, 0⟩)] ∧
      (isWalk main.startPositions [0, 1, 2, 3] = true ∧
        isWalk main.startPositions [0, 4, 5, 3] = true ∧
        linked main.startPositions 0 3 = false ∧
        (∀ m : Nat, ¬ (linked main.startPositions 0 m = true ∧
          linked main.startPositions m 3 = true)) ∧
        (∀ p : List Node, isWalk main.startPositions p = true → p.head? = some 0 →
          p.getLast? = some 3 → 3 ≤ p.length - 1)) :=
  ⟨by decide, C10_shortest_hop_count_is_three main.startPositions (Or.inl rfl)⟩

end Wormhole
